import Mathlib

/-!
Shallow embedding of the Geometry engine of nanocut
(src/nanocut/geometry.py) over exact rationals, together with proofs
about its coordinate transforms, basis folding, lattice-point
enumeration and atom materialization.
-/

namespace Nanocut

/-- A cartesian or fractional 3-vector (numpy shape (3,) array of floats,
modelled exactly over the rationals). -/
structure Vec3 where
  x : ℚ
  y : ℚ
  z : ℚ
  deriving DecidableEq, Repr

instance : Add Vec3 where
  add a b := ⟨a.x + b.x, a.y + b.y, a.z + b.z⟩

instance : Sub Vec3 where
  sub a b := ⟨a.x - b.x, a.y - b.y, a.z - b.z⟩

/-- A 3 by 3 real matrix (numpy shape (3,3) array); row i holds lattice
vector i when used as a lattice matrix. -/
structure Mat3 where
  m00 : ℚ
  m01 : ℚ
  m02 : ℚ
  m10 : ℚ
  m11 : ℚ
  m12 : ℚ
  m20 : ℚ
  m21 : ℚ
  m22 : ℚ
  deriving DecidableEq, Repr

/-- Row vector times matrix: np.dot(v, M) for a (3,) vector and (3,3) matrix. -/
def vecMulMat (v : Vec3) (M : Mat3) : Vec3 :=
  ⟨v.x * M.m00 + v.y * M.m10 + v.z * M.m20,
   v.x * M.m01 + v.y * M.m11 + v.z * M.m21,
   v.x * M.m02 + v.y * M.m12 + v.z * M.m22⟩

/-- np.linalg.det for a 3 by 3 matrix (cofactor expansion along the first row). -/
def Mat3.det (M : Mat3) : ℚ :=
  M.m00 * (M.m11 * M.m22 - M.m12 * M.m21)
    - M.m01 * (M.m10 * M.m22 - M.m12 * M.m20)
    + M.m02 * (M.m10 * M.m21 - M.m11 * M.m20)

/-- np.linalg.inv for a 3 by 3 matrix: adjugate divided by the determinant
(exact over the rationals; junk values when the determinant is zero, matching
the precondition that the lattice matrix is invertible). -/
def Mat3.inv (M : Mat3) : Mat3 :=
  let d := M.det
  ⟨(M.m11 * M.m22 - M.m12 * M.m21) / d,
   (M.m02 * M.m21 - M.m01 * M.m22) / d,
   (M.m01 * M.m12 - M.m02 * M.m11) / d,
   (M.m12 * M.m20 - M.m10 * M.m22) / d,
   (M.m00 * M.m22 - M.m02 * M.m20) / d,
   (M.m02 * M.m10 - M.m00 * M.m12) / d,
   (M.m10 * M.m21 - M.m11 * M.m20) / d,
   (M.m01 * M.m20 - M.m00 * M.m21) / d,
   (M.m00 * M.m11 - M.m01 * M.m10) / d⟩

/-- The 3 by 3 identity matrix (np.eye(3)). -/
def idMat3 : Mat3 := ⟨1, 0, 0, 0, 1, 0, 0, 0, 1⟩

/-- Error taxonomy of the engine: configError embeds the fatal construction
errors raised through nanocut.output.error, coordinateSystemError embeds the
invalid-coordinate-system exception raised by coord_transform. -/
inductive NanocutError where
  | configError (msg : String)
  | coordinateSystemError (msg : String)
  deriving DecidableEq, Repr

/-- Python float modulo 1.0 (mathematical variant: result always in [0,1)
for the positive modulus 1.0), exact over the rationals. -/
def pyMod1 (q : ℚ) : ℚ := q - (⌊q⌋ : ℚ)

/-- Componentwise modulo 1.0 of a vector (numpy broadcasting of % 1.0). -/
def Vec3.mod1 (v : Vec3) : Vec3 := ⟨pyMod1 v.x, pyMod1 v.y, pyMod1 v.z⟩

/-- Geometry.coord_transform as a function of the stored lattice matrix:
"lattice" multiplies the row vector by the lattice matrix, "cartesian" is the
identity, any other tag raises (ValueError in the code, the
CoordinateSystemError of the design). -/
def coordTransform (latvecs : Mat3) (array : Vec3) (array_coordsys : String) :
    Except NanocutError Vec3 :=
  if array_coordsys = "lattice" then
    Except.ok (vecMulMat array latvecs)
  else if array_coordsys = "cartesian" then
    Except.ok array
  else
    Except.error (NanocutError.coordinateSystemError
      ("Invalid coodinate system type " ++ array_coordsys))

/-- Geometry.mv_basis_to_prim as a function of the lattice matrix: convert to
fractional coordinates with the matrix inverse, take componentwise modulo 1.0,
convert back to cartesian (the final coord_transform with tag "lattice"). -/
def mvBasisToPrim (latvecs : Mat3) (basis : Vec3) : Vec3 :=
  vecMulMat (Vec3.mod1 (vecMulMat basis latvecs.inv)) latvecs

/-- The Geometry object: the attributes stored by Geometry.__init__. basis
holds the cartesian positions already shifted and folded into the primitive
cell. -/
structure Geometry where
  latvecs : Mat3
  basis_names_idx : List ℕ
  basis_names : List String
  basis_coordsys : String
  basis : List Vec3
  bravais_cell : Mat3
  deriving DecidableEq, Repr

/-- Geometry.__init__: transform the basis to cartesian, add the optional
shift (itself transformed), fold into the primitive cell, store the inert
bravais_cell (identity when absent). Errors propagate from coord_transform. -/
def Geometry.init (latvecs : Mat3) (basis : List Vec3)
    (basis_names_idx : List ℕ) (basis_names : List String)
    (basis_coordsys : String) (shift : Option Vec3) (shift_coordsys : String)
    (bravais_cell : Option Mat3) : Except NanocutError Geometry := do
  let basisCart ← basis.mapM (fun b => coordTransform latvecs b basis_coordsys)
  let basisShifted ← match shift with
    | none => pure basisCart
    | some s => do
        let sCart ← coordTransform latvecs s shift_coordsys
        pure (basisCart.map (fun b => b + sCart))
  let basisFolded := basisShifted.map (mvBasisToPrim latvecs)
  pure ⟨latvecs, basis_names_idx, basis_names, basis_coordsys, basisFolded,
        bravais_cell.getD idMat3⟩

/-- Modelled from the spec: nanocut.common.EPSILON, the linear-dependence
threshold, given in the spec as an epsilon of e.g. 1e-6 (nanocut/common.py is
not part of the sources). -/
def EPSILON : ℚ := 1 / 1000000

/-- Geometry.fromdict after its string parsing layer: the construction-time
checks on already-parsed numeric data. A determinant below EPSILON in absolute
value, or an unknown basis coordinate system, aborts with a ConfigError
(modelled from the spec: nanocut.output.error raises the fatal ConfigError;
nanocut/output.py is not part of the sources); otherwise the Geometry is
built with basis_names_idx = range(len(basis)). -/
def Geometry.fromdict (latvecs : Mat3) (basis : List Vec3)
    (basis_names : List String) (basis_coordsys : String) (shift : Vec3)
    (shift_coordsys : String) (bravais_cell : Mat3) :
    Except NanocutError Geometry :=
  if |latvecs.det| < EPSILON then
    Except.error (NanocutError.configError "Linearly dependent lattice vectors.")
  else if basis_coordsys = "lattice" ∨ basis_coordsys = "cartesian" then
    Geometry.init latvecs basis (List.range basis.length) basis_names
      basis_coordsys (some shift) shift_coordsys (some bravais_cell)
  else
    Except.error (NanocutError.configError "Invalid coordinate system specification.")

/-- A cartesian bounding cuboid: lower and upper corners (the (2,3) shaped
cuboid argument of Geometry.gen_cuboid, row 0 the lower end, row 1 the upper). -/
structure Cuboid where
  lower : Vec3
  upper : Vec3
  deriving DecidableEq, Repr

/-- The 8 corners of the cuboid, in the order of the np.mgrid mesh of
Geometry.gen_cuboid (first axis slowest, third axis fastest). -/
def cuboidCorners (c : Cuboid) : List Vec3 :=
  [⟨c.lower.x, c.lower.y, c.lower.z⟩,
   ⟨c.lower.x, c.lower.y, c.upper.z⟩,
   ⟨c.lower.x, c.upper.y, c.lower.z⟩,
   ⟨c.lower.x, c.upper.y, c.upper.z⟩,
   ⟨c.upper.x, c.lower.y, c.lower.z⟩,
   ⟨c.upper.x, c.lower.y, c.upper.z⟩,
   ⟨c.upper.x, c.upper.y, c.lower.z⟩,
   ⟨c.upper.x, c.upper.y, c.upper.z⟩]

/-- Componentwise minimum of two 3-vectors. -/
def vecMin (a b : Vec3) : Vec3 := ⟨min a.x b.x, min a.y b.y, min a.z b.z⟩

/-- Componentwise maximum of two 3-vectors. -/
def vecMax (a b : Vec3) : Vec3 := ⟨max a.x b.x, max a.y b.y, max a.z b.z⟩

/-- Integer values a, a+1, ..., b (the slice a : b+1 of the np.mgrid call in
Geometry.gen_cuboid); empty when b is below a. -/
def intRange (a b : ℤ) : List ℤ :=
  (List.range (b + 1 - a).toNat).map (fun k => a + (k : ℤ))

/-- Per-axis buffer of Geometry.gen_cuboid:
np.max(np.abs(latvecs), axis=0), the columnwise maximum absolute entry of the
lattice matrix. -/
def Mat3.colAbsMax (M : Mat3) : Vec3 :=
  ⟨max |M.m00| (max |M.m10| |M.m20|),
   max |M.m01| (max |M.m11| |M.m21|),
   max |M.m02| (max |M.m12| |M.m22|)⟩

/-- Geometry.gen_cuboid: fractional images of the 8 cuboid corners, floors of
their componentwise minimum and maximum as integer index bounds, the dense
integer triple mesh over those bounds (axis 0 slowest), then the filter that
throws away a candidate only when its cartesian image lies componentwise below
lower - buffer on every axis or componentwise above upper + buffer on every
axis; the retained candidates are returned multiplied by the lattice matrix. -/
def Geometry.gen_cuboid (g : Geometry) (cuboid : Cuboid) : List Vec3 :=
  let invlatvecs := g.latvecs.inv
  let nmoCorners := (cuboidCorners cuboid).map (fun p => vecMulMat p invlatvecs)
  let fracMin := nmoCorners.foldl vecMin (nmoCorners.headD ⟨0, 0, 0⟩)
  let fracMax := nmoCorners.foldl vecMax (nmoCorners.headD ⟨0, 0, 0⟩)
  let nmo : List Vec3 :=
    (intRange ⌊fracMin.x⌋ ⌊fracMax.x⌋).flatMap (fun n0 =>
      (intRange ⌊fracMin.y⌋ ⌊fracMax.y⌋).flatMap (fun n1 =>
        (intRange ⌊fracMin.z⌋ ⌊fracMax.z⌋).map (fun n2 =>
          Vec3.mk (n0 : ℚ) (n1 : ℚ) (n2 : ℚ))))
  let buf := g.latvecs.colAbsMax
  let lowcut := cuboid.lower - buf
  let highcut := cuboid.upper + buf
  let inside := nmo.filter (fun n =>
    let abc := vecMulMat n g.latvecs
    decide (¬ ((abc.x < lowcut.x ∧ abc.y < lowcut.y ∧ abc.z < lowcut.z) ∨
               (highcut.x < abc.x ∧ highcut.y < abc.y ∧ highcut.z < abc.z))))
  inside.map (fun n => vecMulMat n g.latvecs)

/-- np.resize of a list of naturals to length n: the input repeated
cyclically (zeros when the input is empty). -/
def npResize (xs : List ℕ) (n : ℕ) : List ℕ :=
  (List.range n).map (fun k => xs.getD (k % xs.length) 0)

/-- Geometry.gen_atoms: one block per lattice point (in the given order), each
block the basis translated by that lattice point; the type indices are
np.resize(np.arange(nbasis), nlatpoint * nbasis). -/
def Geometry.gen_atoms (g : Geometry) (lattice_points : List Vec3) :
    List Vec3 × List ℕ :=
  (lattice_points.flatMap (fun p => g.basis.map (fun b => b + p)),
   npResize (List.range g.basis.length) (lattice_points.length * g.basis.length))

/-- Geometry.get_atom_type_names. -/
def Geometry.get_atom_type_names (g : Geometry) : List String := g.basis_names

/-- Geometry.get_name_of_atom: basis_names[basis_names_idx[index]]; none
models the IndexError escaping when an index is out of range. -/
def Geometry.get_name_of_atom (g : Geometry) (index : ℕ) : Option String := do
  let ti ← g.basis_names_idx.get? index
  g.basis_names.get? ti

/-- A cartesian point lies componentwise inside a cuboid. -/
def inCuboid (c : Cuboid) (p : Vec3) : Prop :=
  c.lower.x ≤ p.x ∧ p.x ≤ c.upper.x ∧
  c.lower.y ≤ p.y ∧ p.y ≤ c.upper.y ∧
  c.lower.z ≤ p.z ∧ p.z ≤ c.upper.z

/-- A cartesian point lies in the half-open unit cell anchored at the lattice
translation t: the fractional coordinates of p - t are in [0,1) on every
axis. The half-open cells of the integer translations tile all of space. -/
def inUnitCell (latvecs : Mat3) (t p : Vec3) : Prop :=
  (0 ≤ (vecMulMat (p - t) latvecs.inv).x ∧ (vecMulMat (p - t) latvecs.inv).x < 1) ∧
  (0 ≤ (vecMulMat (p - t) latvecs.inv).y ∧ (vecMulMat (p - t) latvecs.inv).y < 1) ∧
  (0 ≤ (vecMulMat (p - t) latvecs.inv).z ∧ (vecMulMat (p - t) latvecs.inv).z < 1)

/-- Geometry.coord_transform (method form over the stored lattice matrix). -/
def Geometry.coord_transform (g : Geometry) (array : Vec3)
    (array_coordsys : String) : Except NanocutError Vec3 :=
  coordTransform g.latvecs array array_coordsys

/-- Geometry.mv_basis_to_prim (method form over the stored lattice matrix). -/
def Geometry.mv_basis_to_prim (g : Geometry) (basis : Vec3) : Vec3 :=
  mvBasisToPrim g.latvecs basis

/-- Oblique lattice used to exhibit incompleteness of the enumeration filter:
rows (1,1,0), (1,0,1), (0,1,1), determinant -2. -/
def exLat : Mat3 := ⟨1, 1, 0, 1, 0, 1, 0, 1, 1⟩

/-- Geometry owning the oblique lattice (basis plays no role in gen_cuboid). -/
def exGeomC1 : Geometry := ⟨exLat, [], [], "lattice", [], idMat3⟩

/-- Cuboid from (3/2,3/2,3/2) to (2,2,2). -/
def exCubC1 : Cuboid := ⟨⟨3/2, 3/2, 3/2⟩, ⟨2, 2, 2⟩⟩

/-- The cuboid point (9/5,9/5,9/5), fractional coordinates (9/10,9/10,9/10)
in the oblique lattice, owned by the unit cell of translation (0,0,0). -/
def exPC1 : Vec3 := ⟨9/5, 9/5, 9/5⟩

/-- Simple cubic geometry of Scenario 2 as constructed by Geometry.init:
identity lattice, one basis atom folded at cartesian (1/2,1/2,1/2). -/
def geomC2 : Geometry := ⟨idMat3, [0], ["Si"], "lattice", [⟨1/2, 1/2, 1/2⟩], idMat3⟩

/-- Cuboid from the origin to (2,2,2). -/
def cubC2 : Cuboid := ⟨⟨0, 0, 0⟩, ⟨2, 2, 2⟩⟩

/-- The 27 lattice points with coordinates in 0..2, in the enumeration order
of gen_cuboid (first axis slowest). -/
def ptsC2 : List Vec3 :=
  [⟨0,0,0⟩, ⟨0,0,1⟩, ⟨0,0,2⟩, ⟨0,1,0⟩, ⟨0,1,1⟩, ⟨0,1,2⟩, ⟨0,2,0⟩, ⟨0,2,1⟩, ⟨0,2,2⟩,
   ⟨1,0,0⟩, ⟨1,0,1⟩, ⟨1,0,2⟩, ⟨1,1,0⟩, ⟨1,1,1⟩, ⟨1,1,2⟩, ⟨1,2,0⟩, ⟨1,2,1⟩, ⟨1,2,2⟩,
   ⟨2,0,0⟩, ⟨2,0,1⟩, ⟨2,0,2⟩, ⟨2,1,0⟩, ⟨2,1,1⟩, ⟨2,1,2⟩, ⟨2,2,0⟩, ⟨2,2,1⟩, ⟨2,2,2⟩]

/-- Zero-size cuboid collapsed to the origin. -/
def cubC3 : Cuboid := ⟨⟨0, 0, 0⟩, ⟨0, 0, 0⟩⟩

/-- The degenerate lattice of Scenario 1: rows (1,0,0), (2,0,0), (0,0,1). -/
def latDep : Mat3 := ⟨1, 0, 0, 2, 0, 0, 0, 0, 1⟩

/-- Lattice whose determinant equals EPSILON exactly. -/
def latEps : Mat3 := ⟨1/1000000, 0, 0, 0, 1, 0, 0, 0, 1⟩

/-- Componentwise form of vector addition. -/
lemma Vec3.add_def (a b : Vec3) : a + b = ⟨a.x + b.x, a.y + b.y, a.z + b.z⟩ := rfl

/-- Componentwise form of vector subtraction. -/
lemma Vec3.sub_def (a b : Vec3) : a - b = ⟨a.x - b.x, a.y - b.y, a.z - b.z⟩ := rfl

/-- Right-multiplying by the matrix and then by its inverse is the identity
when the determinant is nonzero (Cramer identity, row-vector convention). -/
lemma vecMulMat_inv_cancel (M : Mat3) (h : M.det ≠ 0) (v : Vec3) :
    vecMulMat (vecMulMat v M) M.inv = v := by
  obtain ⟨a, b, c, d, e, f, g, p, q⟩ := M
  obtain ⟨x, y, z⟩ := v
  simp only [Mat3.det] at h
  simp only [vecMulMat, Mat3.inv, Mat3.det, Vec3.mk.injEq]
  refine ⟨?_, ?_, ?_⟩ <;> (field_simp; ring)

/-- Right-multiplying by the inverse and then by the matrix is the identity
when the determinant is nonzero. -/
lemma vecMulMat_inv_cancel_right (M : Mat3) (h : M.det ≠ 0) (v : Vec3) :
    vecMulMat (vecMulMat v M.inv) M = v := by
  obtain ⟨a, b, c, d, e, f, g, p, q⟩ := M
  obtain ⟨x, y, z⟩ := v
  simp only [Mat3.det] at h
  simp only [vecMulMat, Mat3.inv, Mat3.det, Vec3.mk.injEq]
  refine ⟨?_, ?_, ?_⟩ <;> (field_simp; ring)

/-- pyMod1 agrees with the fractional-part function. -/
lemma pyMod1_eq_fract (q : ℚ) : pyMod1 q = Int.fract q := rfl

/-- pyMod1 lands in [0,1): lower bound. -/
lemma pyMod1_nonneg (q : ℚ) : 0 ≤ pyMod1 q := by
  rw [pyMod1_eq_fract]; exact Int.fract_nonneg q

/-- pyMod1 lands in [0,1): upper bound. -/
lemma pyMod1_lt_one (q : ℚ) : pyMod1 q < 1 := by
  rw [pyMod1_eq_fract]; exact Int.fract_lt_one q

/-- pyMod1 is idempotent. -/
lemma pyMod1_idem (q : ℚ) : pyMod1 (pyMod1 q) = pyMod1 q := by
  simp [pyMod1_eq_fract, Int.fract_fract]

/-- Componentwise modulo 1.0 is idempotent. -/
lemma Vec3.mod1_idem (v : Vec3) : Vec3.mod1 (Vec3.mod1 v) = Vec3.mod1 v := by
  simp [Vec3.mod1, pyMod1_idem]

/-- What gen_cuboid retains on the oblique example: the candidate (0,0,0)
is thrown away by the buffer filter, the other 7 candidates stay. -/
lemma genCuboid_c1_eval : exGeomC1.gen_cuboid exCubC1 =
    [⟨0, 1, 1⟩, ⟨1, 0, 1⟩, ⟨1, 1, 2⟩, ⟨1, 1, 0⟩, ⟨1, 2, 1⟩, ⟨2, 1, 1⟩, ⟨2, 2, 2⟩] := by
  have hr2 : List.range (Int.toNat 2) = [0, 1] := by decide
  norm_num [Geometry.gen_cuboid, cuboidCorners, vecMulMat, Mat3.inv, Mat3.det,
    Mat3.colAbsMax, vecMin, vecMax, intRange, exGeomC1, exCubC1, exLat, idMat3,
    Vec3.add_def, Vec3.sub_def, List.filter_cons, Vec3.mk.injEq, hr2,
    List.flatMap_cons, List.flatMap_nil]

/-- C1: the enumeration is not complete: on the oblique lattice with rows
(1,1,0), (1,0,1), (0,1,1) and the cuboid from (3/2,3/2,3/2) to (2,2,2), the
point (9/5,9/5,9/5) lies inside the cuboid and inside the unit cell of the
translation (0,0,0), yet no translation retained by gen_cuboid has a unit
cell containing it: the buffer filter discards the one covering translation. -/
theorem gen_cuboid_misses_covered_point :
    inCuboid exCubC1 exPC1 ∧
    inUnitCell exGeomC1.latvecs ⟨0, 0, 0⟩ exPC1 ∧
    List.Forall (fun t => ¬ inUnitCell exGeomC1.latvecs t exPC1)
      (exGeomC1.gen_cuboid exCubC1) := by
  refine ⟨?_, ?_, ?_⟩
  · norm_num [inCuboid, exCubC1, exPC1]
  · norm_num [inUnitCell, exGeomC1, exLat, exPC1, vecMulMat, Mat3.inv, Mat3.det,
      Vec3.sub_def]
  · rw [genCuboid_c1_eval]
    norm_num [List.Forall, inUnitCell, exGeomC1, exLat, exPC1, vecMulMat,
      Mat3.inv, Mat3.det, Vec3.sub_def]

/-- Constructing the Scenario 2 geometry succeeds and folds the fractional
basis atom (1/2,1/2,1/2) to the cartesian position (1/2,1/2,1/2). -/
lemma init_c2_eval :
    Geometry.init idMat3 [⟨1/2, 1/2, 1/2⟩] [0] ["Si"] "lattice" none "lattice" none =
      Except.ok geomC2 := by
  have hf : (⌊(1/2 : ℚ)⌋ : ℤ) = 0 := by
    rw [Int.floor_eq_iff]
    norm_num
  norm_num [Geometry.init, coordTransform, mvBasisToPrim, vecMulMat, idMat3,
    Mat3.inv, Mat3.det, Vec3.mod1, pyMod1, geomC2, hf, Vec3.mk.injEq,
    List.mapM, List.mapM.loop, Except.map]

/-- gen_cuboid on the Scenario 2 input retains the full 3 by 3 by 3 block of
translations 0..2 per axis: the floor of the maximal fractional corner
coordinate 2 is the index 2 itself, and the buffer filter discards nothing. -/
lemma genCuboid_c2_eval : geomC2.gen_cuboid cubC2 = ptsC2 := by
  have hr3 : List.range (Int.toNat 3) = [0, 1, 2] := by decide
  norm_num [Geometry.gen_cuboid, cuboidCorners, vecMulMat, Mat3.inv, Mat3.det,
    Mat3.colAbsMax, vecMin, vecMax, intRange, geomC2, cubC2, idMat3, ptsC2,
    Vec3.add_def, Vec3.sub_def, List.filter_cons, Vec3.mk.injEq, hr3,
    List.flatMap_cons, List.flatMap_nil]

/-- C2 counterexample: on Scenario 2 the enumeration keeps 27 lattice points,
not 8, and in particular keeps (2,2,2), outside the claimed 8-point set. -/
theorem scenario2_not_eight_points :
    (geomC2.gen_cuboid cubC2).length = 27 ∧
    Vec3.mk 2 2 2 ∈ geomC2.gen_cuboid cubC2 := by
  rw [genCuboid_c2_eval]
  constructor
  · rfl
  · decide

/-- C2 amended: Scenario 2 yields exactly the 27 lattice points 0..2 per axis
(in enumeration order) and gen_atoms on them yields exactly 27 atoms, the
basis atom (1/2,1/2,1/2) shifted by each lattice point. -/
theorem scenario2_twenty_seven_points :
    Geometry.init idMat3 [⟨1/2, 1/2, 1/2⟩] [0] ["Si"] "lattice" none "lattice" none =
      Except.ok geomC2 ∧
    geomC2.gen_cuboid cubC2 = ptsC2 ∧
    (geomC2.gen_atoms ptsC2).1 = ptsC2.map (fun n => Vec3.mk (1/2) (1/2) (1/2) + n) ∧
    (geomC2.gen_atoms ptsC2).1.length = 27 := by
  refine ⟨init_c2_eval, genCuboid_c2_eval, ?_, ?_⟩
  · norm_num [Geometry.gen_atoms, geomC2, ptsC2, Vec3.add_def]
  · norm_num [Geometry.gen_atoms, geomC2, ptsC2]

/-- gen_cuboid on the zero-size cuboid with the identity lattice: the
candidate mesh is the single index triple (0,0,0) and it survives the filter. -/
lemma genCuboid_c3_eval : geomC2.gen_cuboid cubC3 = [⟨0, 0, 0⟩] := by
  norm_num [Geometry.gen_cuboid, cuboidCorners, vecMulMat, Mat3.inv, Mat3.det,
    Mat3.colAbsMax, vecMin, vecMax, intRange, geomC2, cubC3, idMat3,
    Vec3.add_def, Vec3.sub_def, List.filter_cons, Vec3.mk.injEq, List.range_succ]

/-- C3 counterexample: for the zero-size cuboid at the origin the axis-aligned
neighbor translation (1,0,0), though within the buffer, is not retained. -/
theorem scenario3_neighbor_not_retained :
    Vec3.mk 1 0 0 ∉ geomC2.gen_cuboid cubC3 := by
  rw [genCuboid_c3_eval]
  decide

/-- C3 amended: for the zero-size cuboid at the origin with identity lattice
only the translation (0,0,0) is retained: the buffer never adds candidates
beyond the floored corner-index mesh, it only filters them. -/
theorem scenario3_only_origin : geomC2.gen_cuboid cubC3 = [⟨0, 0, 0⟩] :=
  genCuboid_c3_eval

/-- Length of the block layout produced by gen_atoms. -/
lemma blocks_length (basis ps : List Vec3) :
    (ps.flatMap (fun p => basis.map (fun b => b + p))).length =
      ps.length * basis.length := by
  induction ps with
  | nil => simp
  | cons p ps ih =>
    simp only [List.flatMap_cons, List.length_append, List.length_map,
      List.length_cons, ih, Nat.succ_mul]
    exact Nat.add_comm _ _

/-- Element (i, j) of the block layout produced by gen_atoms: basis atom j
translated by lattice point i. -/
lemma blocks_get (basis ps : List Vec3) (i j : ℕ) (hi : i < ps.length)
    (hj : j < basis.length) :
    (ps.flatMap (fun p => basis.map (fun b => b + p))).get? (i * basis.length + j) =
      some (basis.get ⟨j, hj⟩ + ps.get ⟨i, hi⟩) := by
  induction ps generalizing i with
  | nil => simp at hi
  | cons p ps ih =>
    cases i with
    | zero =>
      rw [List.flatMap_cons, Nat.zero_mul, Nat.zero_add,
        List.get?_append (by simpa using hj), List.get?_map,
        List.get?_eq_get hj]
      rfl
    | succ i =>
      have hi2 : i < ps.length := by simpa using Nat.lt_of_succ_lt_succ hi
      have hidx : (i + 1) * basis.length + j =
          (basis.map (fun b => b + p)).length + (i * basis.length + j) := by
        simp only [List.length_map]
        ring
      rw [List.flatMap_cons, hidx,
        List.get?_append_right (Nat.le_add_right _ _),
        Nat.add_sub_cancel_left]
      exact ih i hi2

/-- C4: gen_atoms returns exactly nlatpoint times nbasis atoms, as contiguous
blocks of the basis in basis order, block i translated by lattice point i. -/
theorem gen_atoms_count_and_blocks (g : Geometry) (ps : List Vec3) :
    (g.gen_atoms ps).1.length = ps.length * g.basis.length ∧
    ∀ (i j : ℕ) (hi : i < ps.length) (hj : j < g.basis.length),
      (g.gen_atoms ps).1.get? (i * g.basis.length + j) =
        some (g.basis.get ⟨j, hj⟩ + ps.get ⟨i, hi⟩) :=
  ⟨blocks_length g.basis ps, fun i j hi hj => blocks_get g.basis ps i j hi hj⟩

/-- C4 witness: two lattice points, one basis atom; atom (1,0) sits at
(1/2,1/2,1/2) + (1,0,0). -/
theorem gen_atoms_count_and_blocks_witness :
    (geomC2.gen_atoms [⟨0, 0, 0⟩, ⟨1, 0, 0⟩]).1.length = 2 * 1 ∧
    (geomC2.gen_atoms [⟨0, 0, 0⟩, ⟨1, 0, 0⟩]).1.get? (1 * 1 + 0) =
      some ⟨3/2, 1/2, 1/2⟩ := by
  have h := gen_atoms_count_and_blocks geomC2 [⟨0, 0, 0⟩, ⟨1, 0, 0⟩]
  constructor
  · exact h.1
  · have h2 := h.2 1 0 (by norm_num) (by norm_num [geomC2])
    rw [show (1 * 1 + 0 : ℕ) = 1 * geomC2.basis.length + 0 from rfl, h2]
    norm_num [geomC2, Vec3.add_def, Vec3.mk.injEq, List.get]

/-- C10: the type indices of gen_atoms cycle through the basis positions,
index k receiving k mod nbasis, and the stored basis_names_idx plays no role
in gen_atoms. -/
theorem gen_atoms_idx_cyclic_and_independent (g : Geometry) (ps : List Vec3) :
    (g.gen_atoms ps).2.length = ps.length * g.basis.length ∧
    (∀ k, k < ps.length * g.basis.length →
      (g.gen_atoms ps).2.get? k = some (k % g.basis.length)) ∧
    ∀ idx : List ℕ,
      (Geometry.mk g.latvecs idx g.basis_names g.basis_coordsys g.basis
        g.bravais_cell).gen_atoms ps = g.gen_atoms ps := by
  refine ⟨?_, ?_, ?_⟩
  · simp [Geometry.gen_atoms, npResize]
  · intro k hk
    have hm : 0 < g.basis.length := by
      rcases Nat.eq_zero_or_pos g.basis.length with h0 | h
      · rw [h0, Nat.mul_zero] at hk
        exact absurd hk (Nat.not_lt_zero k)
      · exact h
    show (npResize (List.range g.basis.length) (ps.length * g.basis.length)).get? k = _
    unfold npResize
    rw [List.get?_map, List.get?_range hk, Option.map_some', List.length_range,
      List.getD_eq_get?, List.get?_range (Nat.mod_lt k hm)]
    rfl
  · intro idx
    rfl

/-- C10 witness: with one basis atom and two lattice points the second type
index is 1 mod 1 = 0, and replacing basis_names_idx changes nothing. -/
theorem gen_atoms_idx_cyclic_and_independent_witness :
    (geomC2.gen_atoms [⟨0, 0, 0⟩, ⟨1, 0, 0⟩]).2.get? 1 =
      some (1 % geomC2.basis.length) ∧
    (Geometry.mk geomC2.latvecs [7] geomC2.basis_names geomC2.basis_coordsys
      geomC2.basis geomC2.bravais_cell).gen_atoms [⟨0, 0, 0⟩, ⟨1, 0, 0⟩] =
      geomC2.gen_atoms [⟨0, 0, 0⟩, ⟨1, 0, 0⟩] :=
  ⟨(gen_atoms_idx_cyclic_and_independent geomC2 [⟨0, 0, 0⟩, ⟨1, 0, 0⟩]).2.1 1
      (by norm_num [geomC2]),
   (gen_atoms_idx_cyclic_and_independent geomC2 [⟨0, 0, 0⟩, ⟨1, 0, 0⟩]).2.2 [7]⟩

/-- The fractional coordinates of a folded position are the componentwise
modulo 1.0 of the fractional coordinates of the input. -/
lemma mv_basis_to_prim_frac (g : Geometry) (h : g.latvecs.det ≠ 0) (v : Vec3) :
    vecMulMat (g.mv_basis_to_prim v) g.latvecs.inv =
      Vec3.mod1 (vecMulMat v g.latvecs.inv) :=
  vecMulMat_inv_cancel g.latvecs h (Vec3.mod1 (vecMulMat v g.latvecs.inv))

/-- C5: folding is idempotent, and the folded position has fractional
coordinates in [0,1) on every axis. -/
theorem mv_basis_to_prim_idempotent_and_range (g : Geometry)
    (h : g.latvecs.det ≠ 0) (x : Vec3) :
    g.mv_basis_to_prim (g.mv_basis_to_prim x) = g.mv_basis_to_prim x ∧
    inUnitCell g.latvecs ⟨0, 0, 0⟩ (g.mv_basis_to_prim x) := by
  constructor
  · show vecMulMat (Vec3.mod1 (vecMulMat (g.mv_basis_to_prim x) g.latvecs.inv))
      g.latvecs = g.mv_basis_to_prim x
    rw [mv_basis_to_prim_frac g h x, Vec3.mod1_idem]
    rfl
  · have hsub : g.mv_basis_to_prim x - ⟨0, 0, 0⟩ = g.mv_basis_to_prim x := by
      simp [Vec3.sub_def]
    unfold inUnitCell
    rw [hsub, mv_basis_to_prim_frac g h x]
    exact ⟨⟨pyMod1_nonneg _, pyMod1_lt_one _⟩, ⟨pyMod1_nonneg _, pyMod1_lt_one _⟩,
      ⟨pyMod1_nonneg _, pyMod1_lt_one _⟩⟩

/-- C5 witness: folding (-3/2, 0, 5/2) in the identity lattice. -/
theorem mv_basis_to_prim_idempotent_and_range_witness :
    geomC2.mv_basis_to_prim (geomC2.mv_basis_to_prim ⟨-3/2, 0, 5/2⟩) =
      geomC2.mv_basis_to_prim ⟨-3/2, 0, 5/2⟩ ∧
    inUnitCell geomC2.latvecs ⟨0, 0, 0⟩ (geomC2.mv_basis_to_prim ⟨-3/2, 0, 5/2⟩) :=
  mv_basis_to_prim_idempotent_and_range geomC2
    (by norm_num [geomC2, idMat3, Mat3.det]) ⟨-3/2, 0, 5/2⟩

/-- C6: converting cartesian coordinates to fractional ones with the lattice
inverse and transforming back with the "lattice" tag returns the input. -/
theorem coord_transform_round_trip (g : Geometry) (h : g.latvecs.det ≠ 0)
    (v : Vec3) :
    g.coord_transform (vecMulMat v g.latvecs.inv) "lattice" = Except.ok v := by
  unfold Geometry.coord_transform coordTransform
  rw [if_pos rfl, vecMulMat_inv_cancel_right g.latvecs h v]

/-- C6 witness: round trip of (1,2,3) through the oblique lattice. -/
theorem coord_transform_round_trip_witness :
    exGeomC1.coord_transform (vecMulMat ⟨1, 2, 3⟩ exGeomC1.latvecs.inv)
      "lattice" = Except.ok ⟨1, 2, 3⟩ :=
  coord_transform_round_trip exGeomC1 (by norm_num [exGeomC1, exLat, Mat3.det])
    ⟨1, 2, 3⟩

/-- C7 amended: construction aborts with the ConfigError for linearly
dependent lattice vectors whenever the determinant is strictly below EPSILON
in absolute value, and no Geometry is produced. -/
theorem fromdict_dependent_lattice_error (latvecs : Mat3) (basis : List Vec3)
    (basis_names : List String) (basis_coordsys : String) (shift : Vec3)
    (shift_coordsys : String) (bravais_cell : Mat3)
    (h : |latvecs.det| < EPSILON) :
    Geometry.fromdict latvecs basis basis_names basis_coordsys shift
      shift_coordsys bravais_cell =
      Except.error (NanocutError.configError "Linearly dependent lattice vectors.") := by
  unfold Geometry.fromdict
  rw [if_pos h]

/-- C7 witness: Scenario 1, the degenerate vectors (1,0,0), (2,0,0), (0,0,1)
have determinant 0 and construction aborts with the ConfigError. -/
theorem fromdict_dependent_lattice_error_witness :
    Geometry.fromdict latDep [] [] "lattice" ⟨0, 0, 0⟩ "lattice" idMat3 =
      Except.error (NanocutError.configError "Linearly dependent lattice vectors.") :=
  fromdict_dependent_lattice_error latDep [] [] "lattice" ⟨0, 0, 0⟩ "lattice"
    idMat3 (by norm_num [latDep, Mat3.det, EPSILON])

/-- C7 counterexample: a determinant of absolute value exactly EPSILON is not
rejected: the code tests strictly-less, the claim says less-or-equal, so
construction succeeds and a Geometry is produced at the boundary. -/
theorem fromdict_det_eq_epsilon_ok :
    |latEps.det| ≤ EPSILON ∧
    Geometry.fromdict latEps [] [] "lattice" ⟨0, 0, 0⟩ "lattice" idMat3 =
      Except.ok ⟨latEps, [], [], "lattice", [], idMat3⟩ := by
  have hdet : latEps.det = 1/1000000 := by norm_num [latEps, Mat3.det]
  have habs : |latEps.det| = 1/1000000 := by
    rw [hdet, abs_of_pos]
    norm_num
  constructor
  · rw [habs, EPSILON]
  · have hlt : ¬ (|latEps.det| < EPSILON) := by
      rw [habs, EPSILON]
      norm_num
    unfold Geometry.fromdict
    rw [if_neg hlt, if_pos (Or.inl rfl)]
    norm_num [Geometry.init, latEps, coordTransform, vecMulMat,
      List.mapM, List.mapM.loop, Except.map]

/-- C8: the transform multiplies by the lattice matrix for the "lattice" tag,
is the identity for the "cartesian" tag, and errors exactly on every other
tag. -/
theorem coord_transform_tag_spec (g : Geometry) (v : Vec3) (s : String) :
    g.coord_transform v "lattice" = Except.ok (vecMulMat v g.latvecs) ∧
    g.coord_transform v "cartesian" = Except.ok v ∧
    ((∃ msg, g.coord_transform v s = Except.error msg) ↔
      s ≠ "lattice" ∧ s ≠ "cartesian") := by
  refine ⟨rfl, ?_, ?_⟩
  · show coordTransform g.latvecs v "cartesian" = Except.ok v
    unfold coordTransform
    rw [if_neg (by decide), if_pos rfl]
  · show (∃ msg, coordTransform g.latvecs v s = Except.error msg) ↔ _
    unfold coordTransform
    by_cases h1 : s = "lattice"
    · subst h1
      simp
    · by_cases h2 : s = "cartesian"
      · subst h2
        simp
      · rw [if_neg h1, if_neg h2]
        simp [h1, h2]

/-- C8 witness: the tag "spam" produces an error. -/
theorem coord_transform_tag_spec_witness :
    ∃ msg, geomC2.coord_transform ⟨1, 2, 3⟩ "spam" = Except.error msg :=
  (coord_transform_tag_spec geomC2 ⟨1, 2, 3⟩ "spam").2.2.mpr (by decide)

/-- C9 amended: the species lookup succeeds exactly on indices below the
basis size: within the basis it returns a label, and on every global atom
index at or beyond the basis size it fails with an IndexError. -/
theorem get_name_of_atom_index_spec (g : Geometry) (i : ℕ)
    (hlen : g.basis_names_idx.length = g.basis.length)
    (hidx : ∀ k ∈ g.basis_names_idx, k < g.basis_names.length) :
    (i < g.basis.length → ∃ name, g.get_name_of_atom i = some name) ∧
    (g.basis.length ≤ i → g.get_name_of_atom i = none) := by
  constructor
  · intro hi
    rw [← hlen] at hi
    obtain ⟨k, hk⟩ : ∃ k, g.basis_names_idx.get? i = some k :=
      ⟨_, List.get?_eq_get hi⟩
    have hklt : k < g.basis_names.length := hidx k (List.get?_mem hk)
    obtain ⟨nm, hnm⟩ : ∃ nm, g.basis_names.get? k = some nm :=
      ⟨_, List.get?_eq_get hklt⟩
    have hdef : g.get_name_of_atom i =
        (g.basis_names_idx.get? i).bind (fun ti => g.basis_names.get? ti) := rfl
    refine ⟨nm, ?_⟩
    rw [hdef, hk]
    exact hnm
  · intro hi
    have hnone : g.basis_names_idx.get? i = none := by
      rw [List.get?_eq_none, hlen]
      exact hi
    have hdef : g.get_name_of_atom i =
        (g.basis_names_idx.get? i).bind (fun ti => g.basis_names.get? ti) := rfl
    rw [hdef, hnone]
    rfl

/-- C9 witness: index 0 of the one-atom basis resolves to a label, index at
the basis size does not. -/
theorem get_name_of_atom_index_spec_witness :
    (0 < geomC2.basis.length → ∃ name, geomC2.get_name_of_atom 0 = some name) ∧
    (geomC2.basis.length ≤ 0 → geomC2.get_name_of_atom 0 = none) :=
  get_name_of_atom_index_spec geomC2 0 (by decide)
    (by intro k hk; simp [geomC2] at hk; simp [hk, geomC2])

/-- C9 counterexample: with one basis atom and two lattice points the atom
set has 2 atoms, yet the lookup at global index 1 hits an IndexError instead
of returning a label. -/
theorem get_name_of_atom_fails_beyond_basis :
    geomC2.get_name_of_atom 1 = none ∧
    1 < (geomC2.gen_atoms [⟨0, 0, 0⟩, ⟨1, 0, 0⟩]).1.length := by
  constructor
  · rfl
  · decide

end Nanocut
